import Mathlib

/-!
Verification of the caer color-conversion layer (`caer/color/_hls.py` and
`caer/color/_hsv.py`): a shallow embedding of the two modules together with
the collaborators they consume, and theorems settling the specified
properties of the ten public conversion functions.

The native primitive `cv2.cvtColor` is an external library; every embedded
conversion function is parameterized over it as an abstract
`cvt : Buffer → Nat → Buffer`.  Collaborator code of the repository that is
not part of the two modules (the adorad `Tensor` container and `to_tensor`
factory, the `_constants` conversion codes, the `_bgr` module's
`bgr2gray`/`bgr2hsv`/`bgr2hls`/`bgr2lab`) is modelled from the spec, as
marked on each definition.
-/

namespace Caer

/-- Modelled from the spec: the raw multi-dimensional numeric pixel buffer
(height by width by channels); `shape` is the list of dimension sizes and
`data` the flattened pixel values. -/
structure Buffer where
  shape : List Nat
  data : List Int
deriving DecidableEq, Repr

/-- Modelled from the spec: the adorad `Tensor` image container, a pixel
buffer carrying a color-space label. -/
structure Tensor where
  buf : Buffer
  cspace : String
deriving DecidableEq, Repr

/-- Modelled from the spec: conversion-code constant of the `_constants`
table (the cv2 value of COLOR_HLS2BGR). -/
def HLS2BGR : Nat := 60

/-- Modelled from the spec: conversion-code constant of the `_constants`
table (the cv2 value of COLOR_HLS2RGB). -/
def HLS2RGB : Nat := 61

/-- Modelled from the spec: conversion-code constant of the `_constants`
table (the cv2 value of COLOR_HSV2BGR). -/
def HSV2BGR : Nat := 54

/-- Modelled from the spec: conversion-code constant of the `_constants`
table (the cv2 value of COLOR_HSV2RGB). -/
def HSV2RGB : Nat := 55

/-- Modelled from the spec: conversion-code constant of the `_constants`
table (the cv2 value of COLOR_BGR2GRAY). -/
def BGR2GRAY : Nat := 6

/-- Modelled from the spec: conversion-code constant of the `_constants`
table (the cv2 value of COLOR_BGR2HSV). -/
def BGR2HSV : Nat := 40

/-- Modelled from the spec: conversion-code constant of the `_constants`
table (the cv2 value of COLOR_BGR2HLS). -/
def BGR2HLS : Nat := 52

/-- Modelled from the spec: conversion-code constant of the `_constants`
table (the cv2 value of COLOR_BGR2LAB). -/
def BGR2LAB : Nat := 44

/-- Modelled from the spec: the adorad factory `to_tensor(buffer, cspace)`,
wrapping a raw buffer in a new container stamped with the color-space tag. -/
def to_tensor (b : Buffer) (cspace : String) : Tensor :=
  { buf := b, cspace := cspace }

/-- Modelled from the spec: `to_tensor` applied to an already-wrapped
container keeps its buffer and stamps the given color-space tag. -/
def to_tensorT (t : Tensor) (cspace : String) : Tensor :=
  { buf := t.buf, cspace := cspace }

/-- Modelled from the spec: the `_bgr` module's `bgr2gray`; BGR to
destination via the native primitive, wrapped with tag `gray` (the second
hop of a chain is assumed always to succeed, so no re-validation). -/
def bgr2gray (cvt : Buffer → Nat → Buffer) (t : Tensor) : Tensor :=
  to_tensor (cvt t.buf BGR2GRAY) "gray"

/-- Modelled from the spec: the `_bgr` module's `bgr2hsv`. -/
def bgr2hsv (cvt : Buffer → Nat → Buffer) (t : Tensor) : Tensor :=
  to_tensor (cvt t.buf BGR2HSV) "hsv"

/-- Modelled from the spec: the `_bgr` module's `bgr2hls`. -/
def bgr2hls (cvt : Buffer → Nat → Buffer) (t : Tensor) : Tensor :=
  to_tensor (cvt t.buf BGR2HLS) "hls"

/-- Modelled from the spec: the `_bgr` module's `bgr2lab`. -/
def bgr2lab (cvt : Buffer → Nat → Buffer) (t : Tensor) : Tensor :=
  to_tensor (cvt t.buf BGR2LAB) "lab"

/-- `_is_hls_image` of `_hls.py`: the shape validator,
`len(img.shape) == 3 and img.shape[-1] == 3`.  Python short-circuits, so
`shape[-1]` is only read when the length is 3 and the list nonempty;
`getLastD 0` agrees with `shape[-1]` there. -/
def _is_hls_image (img : Tensor) : Bool :=
  img.buf.shape.length == 3 && img.buf.shape.getLastD 0 == 3

/-- `_is_hsv_image` of `_hsv.py`: the shape validator of the HSV module,
textually the same predicate as the HLS one. -/
def _is_hsv_image (img : Tensor) : Bool :=
  img.buf.shape.length == 3 && img.buf.shape.getLastD 0 == 3

/-- The error message built by the f-string of each `_hls.py` function:
the destination word varies per call site. -/
def hlsErr (dst : String) (img : Tensor) : String :=
  "Tensor of shape 3 expected. Found shape " ++ toString img.buf.shape.length
    ++ ". This function converts a HLS Tensor to its " ++ dst ++ " counterpart"

/-- The error message built by the f-string of each `_hsv.py` function. -/
def hsvErr (dst : String) (img : Tensor) : String :=
  "Tensor of shape 3 expected. Found shape " ++ toString img.buf.shape.length
    ++ ". This function converts a HSV Tensor to its " ++ dst ++ " counterpart"

/-- `hls2rgb` of `_hls.py`. -/
def hls2rgb (cvt : Buffer → Nat → Buffer) (img : Tensor) : Except String Tensor :=
  if _is_hls_image img then
    Except.ok (to_tensor (cvt img.buf HLS2RGB) "rgb")
  else
    Except.error (hlsErr "RGB" img)

/-- `hls2bgr` of `_hls.py`. -/
def hls2bgr (cvt : Buffer → Nat → Buffer) (img : Tensor) : Except String Tensor :=
  if _is_hls_image img then
    Except.ok (to_tensor (cvt img.buf HLS2BGR) "bgr")
  else
    Except.error (hlsErr "BGR" img)

/-- `hls2gray` of `_hls.py`: chained through `hls2bgr` then `bgr2gray`;
an exception of the inner call propagates. -/
def hls2gray (cvt : Buffer → Nat → Buffer) (img : Tensor) : Except String Tensor :=
  if _is_hls_image img then
    match hls2bgr cvt img with
    | Except.ok bgr => Except.ok (to_tensorT (bgr2gray cvt bgr) "gray")
    | Except.error e => Except.error e
  else
    Except.error (hlsErr "Grayscale" img)

/-- `hls2hsv` of `_hls.py`: chained through `hls2bgr` then `bgr2hsv`.
Note the source's error message names the LAB counterpart, not HSV. -/
def hls2hsv (cvt : Buffer → Nat → Buffer) (img : Tensor) : Except String Tensor :=
  if _is_hls_image img then
    match hls2bgr cvt img with
    | Except.ok bgr => Except.ok (to_tensorT (bgr2hsv cvt bgr) "hsv")
    | Except.error e => Except.error e
  else
    Except.error (hlsErr "LAB" img)

/-- `hls2lab` of `_hls.py`: chained through `hls2bgr` then `bgr2lab`. -/
def hls2lab (cvt : Buffer → Nat → Buffer) (img : Tensor) : Except String Tensor :=
  if _is_hls_image img then
    match hls2bgr cvt img with
    | Except.ok bgr => Except.ok (to_tensorT (bgr2lab cvt bgr) "lab")
    | Except.error e => Except.error e
  else
    Except.error (hlsErr "LAB" img)

/-- `hsv2rgb` of `_hsv.py`. -/
def hsv2rgb (cvt : Buffer → Nat → Buffer) (img : Tensor) : Except String Tensor :=
  if _is_hsv_image img then
    Except.ok (to_tensor (cvt img.buf HSV2RGB) "rgb")
  else
    Except.error (hsvErr "RGB" img)

/-- `hsv2bgr` of `_hsv.py`. -/
def hsv2bgr (cvt : Buffer → Nat → Buffer) (img : Tensor) : Except String Tensor :=
  if _is_hsv_image img then
    Except.ok (to_tensor (cvt img.buf HSV2BGR) "bgr")
  else
    Except.error (hsvErr "BGR" img)

/-- `hsv2gray` of `_hsv.py`: chained through `hsv2bgr` then `bgr2gray`. -/
def hsv2gray (cvt : Buffer → Nat → Buffer) (img : Tensor) : Except String Tensor :=
  if _is_hsv_image img then
    match hsv2bgr cvt img with
    | Except.ok bgr => Except.ok (to_tensorT (bgr2gray cvt bgr) "gray")
    | Except.error e => Except.error e
  else
    Except.error (hsvErr "Grayscale" img)

/-- `hsv2hls` of `_hsv.py`: chained through `hsv2bgr` then `bgr2hls`. -/
def hsv2hls (cvt : Buffer → Nat → Buffer) (img : Tensor) : Except String Tensor :=
  if _is_hsv_image img then
    match hsv2bgr cvt img with
    | Except.ok bgr => Except.ok (to_tensorT (bgr2hls cvt bgr) "hls")
    | Except.error e => Except.error e
  else
    Except.error (hsvErr "HLS" img)

/-- `hsv2lab` of `_hsv.py`: chained through `hsv2bgr` then `bgr2lab`. -/
def hsv2lab (cvt : Buffer → Nat → Buffer) (img : Tensor) : Except String Tensor :=
  if _is_hsv_image img then
    match hsv2bgr cvt img with
    | Except.ok bgr => Except.ok (to_tensorT (bgr2lab cvt bgr) "lab")
    | Except.error e => Except.error e
  else
    Except.error (hsvErr "LAB" img)

/-- Success observer on a conversion result. -/
def exOk : Except String Tensor → Bool
  | Except.ok _ => true
  | Except.error _ => false

/-- A concrete native primitive for witnesses: the identity on buffers. -/
def idcvt : Buffer → Nat → Buffer := fun b _ => b

/-- A concrete shape-respecting native primitive for witnesses: gray drops
the channel dimension, every other code keeps the shape. -/
def shapeCvt : Buffer → Nat → Buffer := fun b code =>
  if code = BGR2GRAY then { shape := b.shape.take 2, data := b.data } else b

/-- A concrete valid 3-channel sample input tagged as HLS. -/
def sampleHls : Tensor :=
  { buf := { shape := [2, 2, 3], data := [5, 5, 5, 5, 5, 5, 5, 5, 5, 5, 5, 5] },
    cspace := "hls" }

/-- A concrete valid 3-channel sample input tagged as HSV. -/
def sampleHsv : Tensor :=
  { buf := { shape := [2, 2, 3], data := [7, 7, 7, 7, 7, 7, 7, 7, 7, 7, 7, 7] },
    cspace := "hsv" }

/-- A concrete 2-dimensional (grayscale-like) sample input, failing the
shape check. -/
def sampleBad : Tensor :=
  { buf := { shape := [4, 4], data := List.replicate 16 0 }, cspace := "hls" }

/-- The Boolean admission check agrees with the specified predicate
`len(shape) == 3 and shape[-1] == 3` (where `shape[-1]` is the last
dimension, which exists whenever the length is 3). -/
lemma shape_valid_iff (s : List Nat) :
    ((s.length == 3 && s.getLastD 0 == 3) = true) ↔
      (s.length = 3 ∧ s.getLast? = some 3) := by
  match s with
  | [] => simp
  | [a] => simp
  | [a, b] => simp
  | [a, b, c] => simp [List.getLastD, List.getLast?]
  | a :: b :: c :: d :: t => simp [List.length]

/-- Claim C1: every input failing the admission check makes each of the ten
conversion functions return the shape error, with a result independent of
the native primitive (so no native conversion is performed); and each
module's validator returns true exactly when the shape has length 3 and
last dimension 3, with no side effects (it is a pure Boolean function). -/
theorem c1_shape_gate_and_validator :
    (∀ img : Tensor, _is_hls_image img = true ↔
        (img.buf.shape.length = 3 ∧ img.buf.shape.getLast? = some 3)) ∧
    (∀ img : Tensor, _is_hsv_image img = true ↔
        (img.buf.shape.length = 3 ∧ img.buf.shape.getLast? = some 3)) ∧
    (∀ (cvt : Buffer → Nat → Buffer) (img : Tensor), _is_hls_image img = false →
        hls2rgb cvt img = Except.error (hlsErr "RGB" img) ∧
        hls2bgr cvt img = Except.error (hlsErr "BGR" img) ∧
        hls2gray cvt img = Except.error (hlsErr "Grayscale" img) ∧
        hls2hsv cvt img = Except.error (hlsErr "LAB" img) ∧
        hls2lab cvt img = Except.error (hlsErr "LAB" img)) ∧
    (∀ (cvt : Buffer → Nat → Buffer) (img : Tensor), _is_hsv_image img = false →
        hsv2rgb cvt img = Except.error (hsvErr "RGB" img) ∧
        hsv2bgr cvt img = Except.error (hsvErr "BGR" img) ∧
        hsv2gray cvt img = Except.error (hsvErr "Grayscale" img) ∧
        hsv2hls cvt img = Except.error (hsvErr "HLS" img) ∧
        hsv2lab cvt img = Except.error (hsvErr "LAB" img)) := by
  refine ⟨fun img => shape_valid_iff img.buf.shape,
    fun img => shape_valid_iff img.buf.shape,
    fun cvt img h => ?_, fun cvt img h => ?_⟩
  · exact ⟨by simp [hls2rgb, h], by simp [hls2bgr, h], by simp [hls2gray, h],
      by simp [hls2hsv, h], by simp [hls2lab, h]⟩
  · exact ⟨by simp [hsv2rgb, h], by simp [hsv2bgr, h], by simp [hsv2gray, h],
      by simp [hsv2hls, h], by simp [hsv2lab, h]⟩

/-- Witness for C1 at a concrete 4 by 4 two-dimensional input. -/
theorem c1_shape_gate_witness :
    hls2rgb idcvt sampleBad = Except.error (hlsErr "RGB" sampleBad) ∧
    hsv2lab idcvt sampleBad = Except.error (hsvErr "LAB" sampleBad) :=
  ⟨(c1_shape_gate_and_validator.2.2.1 idcvt sampleBad (by decide)).1,
   (c1_shape_gate_and_validator.2.2.2 idcvt sampleBad (by decide)).2.2.2.2⟩

/-- Claim C2 (code bug): evaluated at a failing input of shape 4 by 4, the
error message of hls2hsv names the LAB conversion, although the function
attempted (and its own docstring names) the HSV conversion. -/
theorem c2_hls2hsv_message_names_lab :
    hls2hsv idcvt sampleBad = Except.error
      ("Tensor of shape 3 expected. Found shape 2. This function converts a HLS Tensor to its LAB counterpart") := by
  rfl

/-- Claim C3: for a valid 3-channel input, hls2gray equals bgr2gray
composed with hls2bgr, with exact (bit-identical) equality of the
resulting containers. -/
theorem c3_hls2gray_chains_exactly (cvt : Buffer → Nat → Buffer) (img bgr : Tensor)
    (hb : hls2bgr cvt img = Except.ok bgr) :
    hls2gray cvt img = Except.ok (bgr2gray cvt bgr) := by
  by_cases hv : _is_hls_image img = true
  · rw [hls2bgr] at hb
    simp only [hv, if_true, Except.ok.injEq] at hb
    subst hb
    simp [hls2gray, hls2bgr, hv, bgr2gray, to_tensor, to_tensorT]
  · rw [hls2bgr] at hb
    simp [hv] at hb

/-- Witness for C3 at a concrete 2 by 2 by 3 HLS input with the identity
native primitive. -/
theorem c3_hls2gray_chains_witness :
    hls2gray idcvt sampleHls = Except.ok (bgr2gray idcvt (to_tensor sampleHls.buf "bgr")) :=
  c3_hls2gray_chains_exactly idcvt sampleHls (to_tensor sampleHls.buf "bgr") (by rfl)

/-- Claim C9: every conversion function reads only the input buffer, never
the input tag, so two calls on the same input buffer yield bit-identical
results (same payload buffer and same destination tag). -/
theorem c9_deterministic_on_buffer :
    ∀ (cvt : Buffer → Nat → Buffer) (b : Buffer) (s s' : String),
      hls2rgb cvt { buf := b, cspace := s } = hls2rgb cvt { buf := b, cspace := s' } ∧
      hls2bgr cvt { buf := b, cspace := s } = hls2bgr cvt { buf := b, cspace := s' } ∧
      hls2gray cvt { buf := b, cspace := s } = hls2gray cvt { buf := b, cspace := s' } ∧
      hls2hsv cvt { buf := b, cspace := s } = hls2hsv cvt { buf := b, cspace := s' } ∧
      hls2lab cvt { buf := b, cspace := s } = hls2lab cvt { buf := b, cspace := s' } ∧
      hsv2rgb cvt { buf := b, cspace := s } = hsv2rgb cvt { buf := b, cspace := s' } ∧
      hsv2bgr cvt { buf := b, cspace := s } = hsv2bgr cvt { buf := b, cspace := s' } ∧
      hsv2gray cvt { buf := b, cspace := s } = hsv2gray cvt { buf := b, cspace := s' } ∧
      hsv2hls cvt { buf := b, cspace := s } = hsv2hls cvt { buf := b, cspace := s' } ∧
      hsv2lab cvt { buf := b, cspace := s } = hsv2lab cvt { buf := b, cspace := s' } :=
  fun _ _ _ _ => ⟨rfl, rfl, rfl, rfl, rfl, rfl, rfl, rfl, rfl, rfl⟩

/-- Claim C4: every successful conversion returns a container whose
color-space tag is the function's declared destination space. -/
theorem c4_tag_correct :
    (∀ (cvt : Buffer → Nat → Buffer) (img t : Tensor),
        hls2rgb cvt img = Except.ok t → t.cspace = "rgb") ∧
    (∀ (cvt : Buffer → Nat → Buffer) (img t : Tensor),
        hls2bgr cvt img = Except.ok t → t.cspace = "bgr") ∧
    (∀ (cvt : Buffer → Nat → Buffer) (img t : Tensor),
        hls2gray cvt img = Except.ok t → t.cspace = "gray") ∧
    (∀ (cvt : Buffer → Nat → Buffer) (img t : Tensor),
        hls2hsv cvt img = Except.ok t → t.cspace = "hsv") ∧
    (∀ (cvt : Buffer → Nat → Buffer) (img t : Tensor),
        hls2lab cvt img = Except.ok t → t.cspace = "lab") ∧
    (∀ (cvt : Buffer → Nat → Buffer) (img t : Tensor),
        hsv2rgb cvt img = Except.ok t → t.cspace = "rgb") ∧
    (∀ (cvt : Buffer → Nat → Buffer) (img t : Tensor),
        hsv2bgr cvt img = Except.ok t → t.cspace = "bgr") ∧
    (∀ (cvt : Buffer → Nat → Buffer) (img t : Tensor),
        hsv2gray cvt img = Except.ok t → t.cspace = "gray") ∧
    (∀ (cvt : Buffer → Nat → Buffer) (img t : Tensor),
        hsv2hls cvt img = Except.ok t → t.cspace = "hls") ∧
    (∀ (cvt : Buffer → Nat → Buffer) (img t : Tensor),
        hsv2lab cvt img = Except.ok t → t.cspace = "lab") := by
  refine ⟨?_, ?_, ?_, ?_, ?_, ?_, ?_, ?_, ?_, ?_⟩ <;> intro cvt img t h
  · rw [hls2rgb] at h
    by_cases hv : _is_hls_image img = true
    · simp only [hv, if_true, Except.ok.injEq] at h; subst h; rfl
    · simp [hv] at h
  · rw [hls2bgr] at h
    by_cases hv : _is_hls_image img = true
    · simp only [hv, if_true, Except.ok.injEq] at h; subst h; rfl
    · simp [hv] at h
  · rw [hls2gray] at h
    by_cases hv : _is_hls_image img = true
    · simp only [hls2bgr, hv, if_true, Except.ok.injEq] at h; subst h; rfl
    · simp [hv] at h
  · rw [hls2hsv] at h
    by_cases hv : _is_hls_image img = true
    · simp only [hls2bgr, hv, if_true, Except.ok.injEq] at h; subst h; rfl
    · simp [hv] at h
  · rw [hls2lab] at h
    by_cases hv : _is_hls_image img = true
    · simp only [hls2bgr, hv, if_true, Except.ok.injEq] at h; subst h; rfl
    · simp [hv] at h
  · rw [hsv2rgb] at h
    by_cases hv : _is_hsv_image img = true
    · simp only [hv, if_true, Except.ok.injEq] at h; subst h; rfl
    · simp [hv] at h
  · rw [hsv2bgr] at h
    by_cases hv : _is_hsv_image img = true
    · simp only [hv, if_true, Except.ok.injEq] at h; subst h; rfl
    · simp [hv] at h
  · rw [hsv2gray] at h
    by_cases hv : _is_hsv_image img = true
    · simp only [hsv2bgr, hv, if_true, Except.ok.injEq] at h; subst h; rfl
    · simp [hv] at h
  · rw [hsv2hls] at h
    by_cases hv : _is_hsv_image img = true
    · simp only [hsv2bgr, hv, if_true, Except.ok.injEq] at h; subst h; rfl
    · simp [hv] at h
  · rw [hsv2lab] at h
    by_cases hv : _is_hsv_image img = true
    · simp only [hsv2bgr, hv, if_true, Except.ok.injEq] at h; subst h; rfl
    · simp [hv] at h

/-- Witness for C4 at concrete inputs: a direct and a chained conversion. -/
theorem c4_tag_correct_witness :
    (to_tensor (idcvt sampleHls.buf HLS2RGB) "rgb").cspace = "rgb" ∧
    (to_tensorT (bgr2hls idcvt (to_tensor (idcvt sampleHsv.buf HSV2BGR) "bgr")) "hls").cspace = "hls" :=
  ⟨c4_tag_correct.1 idcvt sampleHls (to_tensor (idcvt sampleHls.buf HLS2RGB) "rgb") (by rfl),
   (c4_tag_correct.2.2.2.2.2.2.2.2.1) idcvt sampleHsv
     (to_tensorT (bgr2hls idcvt (to_tensor (idcvt sampleHsv.buf HSV2BGR) "bgr")) "hls") (by rfl)⟩

/-- Claim C5: each indirect conversion is the fixed two-hop pipeline: when
the module's direct source-to-BGR converter succeeds with intermediate bgr,
the chained function returns exactly the external BGR module's converter
applied to that intermediate (retagged by the factory). -/
theorem c5_two_hop_pipeline :
    (∀ (cvt : Buffer → Nat → Buffer) (img bgr : Tensor),
        hls2bgr cvt img = Except.ok bgr →
        hls2gray cvt img = Except.ok (to_tensorT (bgr2gray cvt bgr) "gray") ∧
        hls2hsv cvt img = Except.ok (to_tensorT (bgr2hsv cvt bgr) "hsv") ∧
        hls2lab cvt img = Except.ok (to_tensorT (bgr2lab cvt bgr) "lab")) ∧
    (∀ (cvt : Buffer → Nat → Buffer) (img bgr : Tensor),
        hsv2bgr cvt img = Except.ok bgr →
        hsv2gray cvt img = Except.ok (to_tensorT (bgr2gray cvt bgr) "gray") ∧
        hsv2hls cvt img = Except.ok (to_tensorT (bgr2hls cvt bgr) "hls") ∧
        hsv2lab cvt img = Except.ok (to_tensorT (bgr2lab cvt bgr) "lab")) := by
  constructor
  · intro cvt img bgr hb
    by_cases hv : _is_hls_image img = true
    · rw [hls2bgr] at hb
      simp only [hv, if_true, Except.ok.injEq] at hb
      subst hb
      exact ⟨by simp [hls2gray, hls2bgr, hv], by simp [hls2hsv, hls2bgr, hv],
        by simp [hls2lab, hls2bgr, hv]⟩
    · rw [hls2bgr] at hb
      simp [hv] at hb
  · intro cvt img bgr hb
    by_cases hv : _is_hsv_image img = true
    · rw [hsv2bgr] at hb
      simp only [hv, if_true, Except.ok.injEq] at hb
      subst hb
      exact ⟨by simp [hsv2gray, hsv2bgr, hv], by simp [hsv2hls, hsv2bgr, hv],
        by simp [hsv2lab, hsv2bgr, hv]⟩
    · rw [hsv2bgr] at hb
      simp [hv] at hb

/-- Witness for C5 at a concrete 2 by 2 by 3 HSV input. -/
theorem c5_two_hop_witness :
    hsv2hls idcvt sampleHsv =
      Except.ok (to_tensorT (bgr2hls idcvt (to_tensor sampleHsv.buf "bgr")) "hls") :=
  (c5_two_hop_pipeline.2 idcvt sampleHsv (to_tensor sampleHsv.buf "bgr") (by rfl)).2.1

/-- Claim C6: once the entry-point validation of a chained converter has
passed, the inner direct source-to-BGR converter cannot take its
shape-error branch (it is called on the very image that already passed the
same predicate), so every chained conversion succeeds. -/
theorem c6_inner_hop_never_fails :
    (∀ (cvt : Buffer → Nat → Buffer) (img : Tensor), _is_hls_image img = true →
        hls2bgr cvt img = Except.ok (to_tensor (cvt img.buf HLS2BGR) "bgr") ∧
        exOk (hls2gray cvt img) = true ∧
        exOk (hls2hsv cvt img) = true ∧
        exOk (hls2lab cvt img) = true) ∧
    (∀ (cvt : Buffer → Nat → Buffer) (img : Tensor), _is_hsv_image img = true →
        hsv2bgr cvt img = Except.ok (to_tensor (cvt img.buf HSV2BGR) "bgr") ∧
        exOk (hsv2gray cvt img) = true ∧
        exOk (hsv2hls cvt img) = true ∧
        exOk (hsv2lab cvt img) = true) := by
  constructor
  · intro cvt img hv
    exact ⟨by simp [hls2bgr, hv], by simp [hls2gray, hls2bgr, hv, exOk],
      by simp [hls2hsv, hls2bgr, hv, exOk], by simp [hls2lab, hls2bgr, hv, exOk]⟩
  · intro cvt img hv
    exact ⟨by simp [hsv2bgr, hv], by simp [hsv2gray, hsv2bgr, hv, exOk],
      by simp [hsv2hls, hsv2bgr, hv, exOk], by simp [hsv2lab, hsv2bgr, hv, exOk]⟩

/-- Witness for C6 at a concrete 2 by 2 by 3 HLS input. -/
theorem c6_inner_hop_witness :
    hls2bgr idcvt sampleHls = Except.ok (to_tensor (idcvt sampleHls.buf HLS2BGR) "bgr") ∧
    exOk (hls2hsv idcvt sampleHls) = true :=
  ⟨(c6_inner_hop_never_fails.1 idcvt sampleHls (by decide)).1,
   (c6_inner_hop_never_fails.1 idcvt sampleHls (by decide)).2.2.1⟩

/-- Claim C7: assuming the native primitive preserves the buffer shape on
color-to-color codes and keeps only the two spatial dimensions on the
BGR-to-gray code (the external library's contract), every conversion of a
valid h by w by 3 input returns a buffer with spatial dimensions h by w,
with 3 channels for the RGB, BGR, HSV, HLS and LAB destinations. -/
theorem c7_shape_preservation (cvt : Buffer → Nat → Buffer)
    (hc : ∀ (b : Buffer) (code : Nat), code ≠ BGR2GRAY → (cvt b code).shape = b.shape)
    (hg : ∀ b : Buffer, (cvt b BGR2GRAY).shape = b.shape.take 2)
    (img : Tensor) (h w : Nat) (hshape : img.buf.shape = [h, w, 3]) :
    (∀ t, hls2rgb cvt img = Except.ok t → t.buf.shape = [h, w, 3]) ∧
    (∀ t, hls2bgr cvt img = Except.ok t → t.buf.shape = [h, w, 3]) ∧
    (∀ t, hls2gray cvt img = Except.ok t → t.buf.shape = [h, w]) ∧
    (∀ t, hls2hsv cvt img = Except.ok t → t.buf.shape = [h, w, 3]) ∧
    (∀ t, hls2lab cvt img = Except.ok t → t.buf.shape = [h, w, 3]) ∧
    (∀ t, hsv2rgb cvt img = Except.ok t → t.buf.shape = [h, w, 3]) ∧
    (∀ t, hsv2bgr cvt img = Except.ok t → t.buf.shape = [h, w, 3]) ∧
    (∀ t, hsv2gray cvt img = Except.ok t → t.buf.shape = [h, w]) ∧
    (∀ t, hsv2hls cvt img = Except.ok t → t.buf.shape = [h, w, 3]) ∧
    (∀ t, hsv2lab cvt img = Except.ok t → t.buf.shape = [h, w, 3]) := by
  have hv : _is_hls_image img = true := by
    simp [_is_hls_image, hshape, List.getLastD]
  have hv2 : _is_hsv_image img = true := hv
  refine ⟨?_, ?_, ?_, ?_, ?_, ?_, ?_, ?_, ?_, ?_⟩ <;> intro t ht
  · rw [hls2rgb] at ht
    simp only [hv, if_true, Except.ok.injEq] at ht
    subst ht
    simp only [to_tensor]
    rw [hc _ _ (by decide), hshape]
  · rw [hls2bgr] at ht
    simp only [hv, if_true, Except.ok.injEq] at ht
    subst ht
    simp only [to_tensor]
    rw [hc _ _ (by decide), hshape]
  · rw [hls2gray] at ht
    simp only [hls2bgr, hv, if_true, Except.ok.injEq] at ht
    subst ht
    simp only [to_tensorT, bgr2gray, to_tensor]
    rw [hg, hc _ _ (by decide), hshape]
    rfl
  · rw [hls2hsv] at ht
    simp only [hls2bgr, hv, if_true, Except.ok.injEq] at ht
    subst ht
    simp only [to_tensorT, bgr2hsv, to_tensor]
    rw [hc _ _ (by decide), hc _ _ (by decide), hshape]
  · rw [hls2lab] at ht
    simp only [hls2bgr, hv, if_true, Except.ok.injEq] at ht
    subst ht
    simp only [to_tensorT, bgr2lab, to_tensor]
    rw [hc _ _ (by decide), hc _ _ (by decide), hshape]
  · rw [hsv2rgb] at ht
    simp only [hv2, if_true, Except.ok.injEq] at ht
    subst ht
    simp only [to_tensor]
    rw [hc _ _ (by decide), hshape]
  · rw [hsv2bgr] at ht
    simp only [hv2, if_true, Except.ok.injEq] at ht
    subst ht
    simp only [to_tensor]
    rw [hc _ _ (by decide), hshape]
  · rw [hsv2gray] at ht
    simp only [hsv2bgr, hv2, if_true, Except.ok.injEq] at ht
    subst ht
    simp only [to_tensorT, bgr2gray, to_tensor]
    rw [hg, hc _ _ (by decide), hshape]
    rfl
  · rw [hsv2hls] at ht
    simp only [hsv2bgr, hv2, if_true, Except.ok.injEq] at ht
    subst ht
    simp only [to_tensorT, bgr2hls, to_tensor]
    rw [hc _ _ (by decide), hc _ _ (by decide), hshape]
  · rw [hsv2lab] at ht
    simp only [hsv2bgr, hv2, if_true, Except.ok.injEq] at ht
    subst ht
    simp only [to_tensorT, bgr2lab, to_tensor]
    rw [hc _ _ (by decide), hc _ _ (by decide), hshape]

/-- Witness for C7 with a concrete shape-respecting native primitive on a
2 by 2 by 3 input: the direct RGB output keeps shape 2 by 2 by 3 and the
chained gray output has spatial shape 2 by 2. -/
theorem c7_shape_preservation_witness :
    (to_tensor (shapeCvt sampleHls.buf HLS2RGB) "rgb").buf.shape = [2, 2, 3] ∧
    (to_tensorT (bgr2gray shapeCvt (to_tensor (shapeCvt sampleHls.buf HLS2BGR) "bgr")) "gray").buf.shape = [2, 2] :=
  ⟨(c7_shape_preservation shapeCvt
      (fun b code hne => by simp [shapeCvt, hne]) (fun b => by simp [shapeCvt])
      sampleHls 2 2 rfl).1
      (to_tensor (shapeCvt sampleHls.buf HLS2RGB) "rgb") (by rfl),
   (c7_shape_preservation shapeCvt
      (fun b code hne => by simp [shapeCvt, hne]) (fun b => by simp [shapeCvt])
      sampleHls 2 2 rfl).2.2.1
      (to_tensorT (bgr2gray shapeCvt (to_tensor (shapeCvt sampleHls.buf HLS2BGR) "bgr")) "gray") (by rfl)⟩

/-- Claim C10: acceptance depends only on the shape tuple: the two
validators are the same predicate, any h by w by 3 buffer is accepted by
every function regardless of data and tag, and two inputs with equal
shapes are either both accepted or both rejected by each of the ten
functions. -/
theorem c10_acceptance_depends_only_on_shape :
    (∀ img : Tensor, _is_hls_image img = _is_hsv_image img) ∧
    (∀ (h w : Nat) (d : List Int) (c : String),
        _is_hls_image { buf := { shape := [h, w, 3], data := d }, cspace := c } = true ∧
        _is_hsv_image { buf := { shape := [h, w, 3], data := d }, cspace := c } = true) ∧
    (∀ (cvt : Buffer → Nat → Buffer) (h w : Nat) (d : List Int) (c : String),
        exOk (hls2rgb cvt { buf := { shape := [h, w, 3], data := d }, cspace := c }) = true ∧
        exOk (hls2bgr cvt { buf := { shape := [h, w, 3], data := d }, cspace := c }) = true ∧
        exOk (hls2gray cvt { buf := { shape := [h, w, 3], data := d }, cspace := c }) = true ∧
        exOk (hls2hsv cvt { buf := { shape := [h, w, 3], data := d }, cspace := c }) = true ∧
        exOk (hls2lab cvt { buf := { shape := [h, w, 3], data := d }, cspace := c }) = true ∧
        exOk (hsv2rgb cvt { buf := { shape := [h, w, 3], data := d }, cspace := c }) = true ∧
        exOk (hsv2bgr cvt { buf := { shape := [h, w, 3], data := d }, cspace := c }) = true ∧
        exOk (hsv2gray cvt { buf := { shape := [h, w, 3], data := d }, cspace := c }) = true ∧
        exOk (hsv2hls cvt { buf := { shape := [h, w, 3], data := d }, cspace := c }) = true ∧
        exOk (hsv2lab cvt { buf := { shape := [h, w, 3], data := d }, cspace := c }) = true) ∧
    (∀ (cvt : Buffer → Nat → Buffer) (a b : Tensor), a.buf.shape = b.buf.shape →
        exOk (hls2rgb cvt a) = exOk (hls2rgb cvt b) ∧
        exOk (hls2bgr cvt a) = exOk (hls2bgr cvt b) ∧
        exOk (hls2gray cvt a) = exOk (hls2gray cvt b) ∧
        exOk (hls2hsv cvt a) = exOk (hls2hsv cvt b) ∧
        exOk (hls2lab cvt a) = exOk (hls2lab cvt b) ∧
        exOk (hsv2rgb cvt a) = exOk (hsv2rgb cvt b) ∧
        exOk (hsv2bgr cvt a) = exOk (hsv2bgr cvt b) ∧
        exOk (hsv2gray cvt a) = exOk (hsv2gray cvt b) ∧
        exOk (hsv2hls cvt a) = exOk (hsv2hls cvt b) ∧
        exOk (hsv2lab cvt a) = exOk (hsv2lab cvt b)) := by
  refine ⟨fun img => rfl, fun h w d c => ?_, fun cvt h w d c => ?_, fun cvt a b hab => ?_⟩
  · exact ⟨by simp [_is_hls_image, List.getLastD], by simp [_is_hsv_image, List.getLastD]⟩
  · have hv : _is_hls_image { buf := { shape := [h, w, 3], data := d }, cspace := c } = true := by
      simp [_is_hls_image, List.getLastD]
    have hv2 : _is_hsv_image { buf := { shape := [h, w, 3], data := d }, cspace := c } = true := hv
    exact ⟨by simp [hls2rgb, hv, exOk], by simp [hls2bgr, hv, exOk],
      by simp [hls2gray, hls2bgr, hv, exOk], by simp [hls2hsv, hls2bgr, hv, exOk],
      by simp [hls2lab, hls2bgr, hv, exOk], by simp [hsv2rgb, hv2, exOk],
      by simp [hsv2bgr, hv2, exOk], by simp [hsv2gray, hsv2bgr, hv2, exOk],
      by simp [hsv2hls, hsv2bgr, hv2, exOk], by simp [hsv2lab, hsv2bgr, hv2, exOk]⟩
  · have hv : _is_hls_image a = _is_hls_image b := by
      unfold _is_hls_image
      rw [hab]
    by_cases hb2 : _is_hls_image b = true
    · have ha : _is_hls_image a = true := hv.trans hb2
      have ha2 : _is_hsv_image a = true := ha
      have hb3 : _is_hsv_image b = true := hb2
      exact ⟨by simp [hls2rgb, ha, hb2, exOk], by simp [hls2bgr, ha, hb2, exOk],
        by simp [hls2gray, hls2bgr, ha, hb2, exOk],
        by simp [hls2hsv, hls2bgr, ha, hb2, exOk],
        by simp [hls2lab, hls2bgr, ha, hb2, exOk],
        by simp [hsv2rgb, ha2, hb3, exOk], by simp [hsv2bgr, ha2, hb3, exOk],
        by simp [hsv2gray, hsv2bgr, ha2, hb3, exOk],
        by simp [hsv2hls, hsv2bgr, ha2, hb3, exOk],
        by simp [hsv2lab, hsv2bgr, ha2, hb3, exOk]⟩
    · have hbf : _is_hls_image b = false := by
        revert hb2
        cases _is_hls_image b <;> simp
      have haf : _is_hls_image a = false := hv.trans hbf
      have haf2 : _is_hsv_image a = false := haf
      have hbf2 : _is_hsv_image b = false := hbf
      exact ⟨by simp [hls2rgb, haf, hbf, exOk], by simp [hls2bgr, haf, hbf, exOk],
        by simp [hls2gray, haf, hbf, exOk], by simp [hls2hsv, haf, hbf, exOk],
        by simp [hls2lab, haf, hbf, exOk], by simp [hsv2rgb, haf2, hbf2, exOk],
        by simp [hsv2bgr, haf2, hbf2, exOk], by simp [hsv2gray, haf2, hbf2, exOk],
        by simp [hsv2hls, haf2, hbf2, exOk], by simp [hsv2lab, haf2, hbf2, exOk]⟩

/-- Witness for C10: two concrete inputs of equal shape but different data
and different tags are treated alike. -/
theorem c10_acceptance_witness :
    exOk (hls2rgb idcvt sampleHls) = exOk (hls2rgb idcvt sampleHsv) :=
  (c10_acceptance_depends_only_on_shape.2.2.2 idcvt sampleHls sampleHsv (by rfl)).1

end Caer
